import Mathlib

set_option maxHeartbeats 1000000

/-!
Verification of the `vic-machine debug` workflow
(`src/cmd/vic-machine/debug/debug.go`, package `debug`).

The workflow `Run` is embedded as a deterministic function of an
environment recording the outcomes of the external collaborators
(credential check, validator construction, VCH resolution, config fetch,
key-file read, debug configuration, inspection).  `Run` returns the
terminal result (`Except String Unit`, the Go `error` return) together
with the trace of collaborator calls it made, in order, each recorded
with the context it ran under.
-/

namespace VicDebug

/-- Deadline context mirroring `golang.org/x/net/context` values:
`background` is `context.Background()` and `withTimeout p t` is the
context returned by `context.WithTimeout(p, t)` (debug.go line 110). -/
inductive Ctx : Type where
  | background : Ctx
  | withTimeout : Ctx → Nat → Ctx
deriving DecidableEq, Repr

/-- The fields of the embedded `data.Data` that debug.go reads or writes:
`ID`, `ComputeResourcePath`, `DisplayName`, `Timeout`, `Force`,
`Insecure`, and the debug level `d.Debug.Debug` (here `debugLevel`). -/
structure Data : Type where
  ID : String
  ComputeResourcePath : String
  DisplayName : String
  Timeout : Nat
  Force : Bool
  Insecure : Bool
  debugLevel : Nat
deriving DecidableEq, Repr

/-- The `Debug` command struct (debug.go lines 35-43): the embedded
`*data.Data` plus the three debug flags bound by `Flags`. -/
structure Debug : Type where
  data : Data
  enableSSH : Bool
  password : String
  authorizedKey : String
deriving DecidableEq, Repr

/-- Opaque handle to a resolved appliance (`*vm.VirtualMachine`). -/
abbrev VCH := Nat

/-- Opaque appliance configuration snapshot returned by `GetVCHConfig`. -/
abbrev VCHConfig := Nat

/-- Modelled from the spec: `validate.Validator` lives in
`lib/install/validate`, which is not under src/.  Per spec §4.2 the
validator produced on success is a validated session context "usable by
Resolver, Configurator, and Diagnostic Collector for the remainder of
the run", so it is modelled as carrying the deadline context it was
created under (`Context`, read at debug.go line 118) together with an
opaque session (`Session`). -/
structure Validator : Type where
  Context : Ctx
  Session : Nat
deriving DecidableEq, Repr

/-- Modelled from the spec: `management.Dispatcher` lives in
`lib/install/management`, not under src/.  Per spec §5 and §9 every step
runs under the one deadline context threaded in at workflow entry, so the
dispatcher stores the context and session it is handed at construction
(debug.go line 118) and each of its methods runs under that stored
context. -/
structure Dispatcher : Type where
  ctx : Ctx
  session : Nat
  force : Bool
deriving DecidableEq, Repr

/-- `management.NewDispatcher(ctx, session, nil, force)` (debug.go line 118). -/
def NewDispatcher (ctx : Ctx) (session : Nat) (force : Bool) : Dispatcher :=
  ⟨ctx, session, force⟩

/-- Outcomes of the external collaborators consumed by `Run` through
their contracts: the credential check (`data.Data.HasCredentials`),
validator construction (`validate.NewValidator`), resolution
(`Dispatcher.NewVCHFromID` / `NewVCHFromComputePath`), config fetch
(`GetVCHConfig`), key-file reading (`ioutil.ReadFile`), configuration
(`DebugVCH`) and inspection (`InspectVCH`).  Each collaborator is
modelled by the result it returns on the arguments the orchestrator
passes; `newValidator` yields the opaque session of the validator built
for the given data. -/
structure Env : Type where
  hasCredentials : Except String Unit
  newValidator : Data → Except String Nat
  newVCHFromID : String → Except String VCH
  newVCHFromComputePath : String → String → Validator → Except String VCH
  getVCHConfig : VCH → Except String VCHConfig
  readFile : String → Except String String
  debugVCH : VCH → VCHConfig → String → String → Except String Unit
  inspectVCH : VCH → VCHConfig → Except String Unit

/-- Modelled from the spec: `validate.NewValidator(ctx, data)` is not
under src/.  Per spec §4.2 it either fails or returns a validator whose
session context is the one established for this run under the deadline
context it was given. -/
def NewValidator (env : Env) (ctx : Ctx) (d : Data) : Except String Validator :=
  match env.newValidator d with
  | .error e => .error e
  | .ok session => .ok ⟨ctx, session⟩

/-- One collaborator call made by `Run`, recorded with the context it ran
under (dispatcher methods run under the dispatcher's stored context;
`ioutil.ReadFile` is a local file read with no context). -/
inductive Event : Type where
  | newValidatorCall (ctx : Ctx) (d : Data)
  | newVCHFromIDCall (ctx : Ctx) (id : String)
  | newVCHFromComputePathCall (ctx : Ctx) (path : String) (name : String) (v : Validator)
  | getVCHConfigCall (ctx : Ctx) (vch : VCH)
  | initDiagnosticLogsCall (ctx : Ctx) (vchConfig : VCHConfig)
  | readFileCall (path : String)
  | debugVCHCall (ctx : Ctx) (vch : VCH) (vchConfig : VCHConfig) (password : String) (key : String)
  | collectDiagnosticLogsCall (ctx : Ctx)
  | inspectVCHCall (ctx : Ctx) (vch : VCH) (vchConfig : VCHConfig)
deriving DecidableEq, Repr

/-- Whether an `Except` result is an error (`err != nil` in Go). -/
def isErr {α : Type} : Except String α → Bool
  | .error _ => true
  | .ok _ => false

/-- Whether an event is a `CollectDiagnosticLogs` call. -/
def isCollect : Event → Bool
  | .collectDiagnosticLogsCall _ => true
  | _ => false

/-- The context an event ran under, when it has one. -/
def eventCtx : Event → Option Ctx
  | .newValidatorCall c _ => some c
  | .newVCHFromIDCall c _ => some c
  | .newVCHFromComputePathCall c _ _ _ => some c
  | .getVCHConfigCall c _ => some c
  | .initDiagnosticLogsCall c _ => some c
  | .readFileCall _ => none
  | .debugVCHCall c _ _ _ _ => some c
  | .collectDiagnosticLogsCall c => some c
  | .inspectVCHCall c _ _ => some c

/-- Lines 159-170 of debug.go: `DebugVCH(vch, vchConfig, password, key)`;
on failure, `CollectDiagnosticLogs` and return `errors.New("Debug
failed")`.  Otherwise `InspectVCH(vch, vchConfig)`; on failure,
`CollectDiagnosticLogs` and return `errors.New("inspect failed")`;
otherwise success. -/
def debugAndInspect (env : Env) (executor : Dispatcher) (vch : VCH)
    (vchConfig : VCHConfig) (password key : String) :
    Except String Unit × List Event :=
  match env.debugVCH vch vchConfig password key with
  | .error _ =>
      (.error "Debug failed",
        [Event.debugVCHCall executor.ctx vch vchConfig password key,
         Event.collectDiagnosticLogsCall executor.ctx])
  | .ok _ =>
      match env.inspectVCH vch vchConfig with
      | .error _ =>
          (.error "inspect failed",
            [Event.debugVCHCall executor.ctx vch vchConfig password key,
             Event.inspectVCHCall executor.ctx vch vchConfig,
             Event.collectDiagnosticLogsCall executor.ctx])
      | .ok _ =>
          (.ok (),
            [Event.debugVCHCall executor.ctx vch vchConfig password key,
             Event.inspectVCHCall executor.ctx vch vchConfig])

/-- Lines 149-157: `var key []byte` and the key file is read only when
`d.authorizedKey` is set; a read failure returns `errors.New("unable to
load public key")`.  When unset, `string(key)` of the nil slice is the
empty string. -/
def loadKey (env : Env) (executor : Dispatcher) (d : Debug) (vch : VCH)
    (vchConfig : VCHConfig) : Except String Unit × List Event :=
  if d.authorizedKey ≠ "" then
    match env.readFile d.authorizedKey with
    | .error _ =>
        (.error "unable to load public key", [Event.readFileCall d.authorizedKey])
    | .ok key =>
        ((debugAndInspect env executor vch vchConfig d.password key).1,
          Event.readFileCall d.authorizedKey ::
            (debugAndInspect env executor vch vchConfig d.password key).2)
  else
    debugAndInspect env executor vch vchConfig d.password ""

/-- Lines 135-147: `GetVCHConfig(vch)`; on failure return
`errors.New("Debug failed")`; on success `InitDiagnosticLogs(vchConfig)`
and version reporting, then the key-load step. -/
def fetchConfig (env : Env) (executor : Dispatcher) (d : Debug) (vch : VCH) :
    Except String Unit × List Event :=
  match env.getVCHConfig vch with
  | .error _ => (.error "Debug failed", [Event.getVCHConfigCall executor.ctx vch])
  | .ok vchConfig =>
      ((loadKey env executor d vch vchConfig).1,
        Event.getVCHConfigCall executor.ctx vch ::
          Event.initDiagnosticLogsCall executor.ctx vchConfig ::
            (loadKey env executor d vch vchConfig).2)

/-- Lines 120-133: when `d.Data.ID` is non-empty the VCH is resolved with
`NewVCHFromID(d.Data.ID)`, otherwise with
`NewVCHFromComputePath(d.Data.ComputeResourcePath, d.Data.DisplayName,
validator)`; a resolution failure returns `errors.New("Debug failed")`. -/
def resolve (env : Env) (executor : Dispatcher) (validator : Validator)
    (d : Debug) : Except String Unit × List Event :=
  if d.data.ID ≠ "" then
    match env.newVCHFromID d.data.ID with
    | .error _ =>
        (.error "Debug failed", [Event.newVCHFromIDCall executor.ctx d.data.ID])
    | .ok vch =>
        ((fetchConfig env executor d vch).1,
          Event.newVCHFromIDCall executor.ctx d.data.ID ::
            (fetchConfig env executor d vch).2)
  else
    match env.newVCHFromComputePath d.data.ComputeResourcePath d.data.DisplayName validator with
    | .error _ =>
        (.error "Debug failed",
          [Event.newVCHFromComputePathCall executor.ctx d.data.ComputeResourcePath
            d.data.DisplayName validator])
    | .ok vch =>
        ((fetchConfig env executor d vch).1,
          Event.newVCHFromComputePathCall executor.ctx d.data.ComputeResourcePath
            d.data.DisplayName validator ::
            (fetchConfig env executor d vch).2)

/-- Lines 81-90: `processParams` checks credentials (returning the
credential error unchanged on failure) and then forces `d.Insecure =
true`. -/
def processParams (env : Env) (d : Debug) : Except String Debug :=
  match env.hasCredentials with
  | .error e => .error e
  | .ok _ => .ok { d with data := { d.data with Insecure := true } }

/-- Lines 92-175: the `Run` workflow.  After `processParams`, extra CLI
arguments are rejected with `errors.New("invalid CLI arguments")`; a
deadline context `context.WithTimeout(context.Background(), d.Timeout)`
is created once; `validate.NewValidator(ctx, d.Data)` failure returns
`errors.New("Debug failed")`; then the dispatcher is built from
`validator.Context`, `validator.Session` and `d.Force`, and resolution,
config fetch, key load, configuration and inspection follow.  The
log-level branch at lines 98-101 only adjusts logging and is not
modelled.  The result is paired with the trace of collaborator calls. -/
def Run (env : Env) (d0 : Debug) (cliArgs : List String) :
    Except String Unit × List Event :=
  match processParams env d0 with
  | .error e => (.error e, [])
  | .ok d =>
      if 0 < cliArgs.length then (.error "invalid CLI arguments", [])
      else
        match NewValidator env (Ctx.withTimeout Ctx.background d.data.Timeout) d.data with
        | .error _ =>
            (.error "Debug failed",
              [Event.newValidatorCall (Ctx.withTimeout Ctx.background d.data.Timeout) d.data])
        | .ok validator =>
            ((resolve env (NewDispatcher validator.Context validator.Session d.data.Force)
                validator d).1,
              Event.newValidatorCall (Ctx.withTimeout Ctx.background d.data.Timeout) d.data ::
                (resolve env (NewDispatcher validator.Context validator.Session d.data.Force)
                  validator d).2)

/-! Concrete inputs and collaborator environments used by the witnesses
and the counterexample. -/

/-- A concrete `data.Data` with a non-empty ID selector. -/
def dataIn : Data :=
  { ID := "vch-42", ComputeResourcePath := "/dc1/host/cluster1", DisplayName := "vch-test",
    Timeout := 3, Force := false, Insecure := false, debugLevel := 0 }

/-- A concrete `Debug` invocation resolving by ID, with no key file. -/
def dIn : Debug := { data := dataIn, enableSSH := true, password := "pw", authorizedKey := "" }

/-- The invocation `dIn` with an authorized-key file set. -/
def dInKey : Debug := { dIn with authorizedKey := "/root/key.pub" }

/-- An invocation whose ID, compute path and display name are all empty. -/
def dEmpty : Debug :=
  { data := { ID := "", ComputeResourcePath := "", DisplayName := "", Timeout := 3,
              Force := false, Insecure := false, debugLevel := 0 },
    enableSSH := false, password := "", authorizedKey := "" }

/-- An environment in which every collaborator succeeds. -/
def envOk : Env :=
  { hasCredentials := .ok ()
    newValidator := fun _ => .ok 7
    newVCHFromID := fun _ => .ok 1
    newVCHFromComputePath := fun _ _ _ => .ok 2
    getVCHConfig := fun _ => .ok 3
    readFile := fun _ => .ok "ssh-rsa AAAA"
    debugVCH := fun _ _ _ _ => .ok ()
    inspectVCH := fun _ _ => .ok () }

/-- Environment in which `validate.NewValidator` fails. -/
def envValidatorFail : Env := { envOk with newValidator := fun _ => .error "bad cert" }

/-- Environment in which VCH resolution fails on both routes. -/
def envResolveFail : Env :=
  { envOk with newVCHFromID := fun _ => .error "not found",
               newVCHFromComputePath := fun _ _ _ => .error "not found" }

/-- Environment in which `GetVCHConfig` fails. -/
def envConfigFail : Env := { envOk with getVCHConfig := fun _ => .error "no config" }

/-- Environment in which `ioutil.ReadFile` fails. -/
def envReadFail : Env := { envOk with readFile := fun _ => .error "no such file" }

/-- Environment in which `DebugVCH` fails. -/
def envDebugFail : Env := { envOk with debugVCH := fun _ _ _ _ => .error "platform error" }

/-- Environment in which `InspectVCH` fails. -/
def envInspectFail : Env := { envOk with inspectVCH := fun _ _ => .error "inspect error" }

/-- The run made a Validator call that failed. -/
def FailsAtValidation (env : Env) (d0 : Debug) (args : List String) : Prop :=
  ∃ c dd, Event.newValidatorCall c dd ∈ (Run env d0 args).2 ∧
    isErr (env.newValidator dd) = true

/-- The run made a resolution call (either route) that failed. -/
def FailsAtResolution (env : Env) (d0 : Debug) (args : List String) : Prop :=
  (∃ c i, Event.newVCHFromIDCall c i ∈ (Run env d0 args).2 ∧
    isErr (env.newVCHFromID i) = true) ∨
  (∃ c pa n vl, Event.newVCHFromComputePathCall c pa n vl ∈ (Run env d0 args).2 ∧
    isErr (env.newVCHFromComputePath pa n vl) = true)

/-- The run made a `GetVCHConfig` call that failed. -/
def FailsAtConfigFetch (env : Env) (d0 : Debug) (args : List String) : Prop :=
  ∃ c v, Event.getVCHConfigCall c v ∈ (Run env d0 args).2 ∧
    isErr (env.getVCHConfig v) = true

/-- The run made a `DebugVCH` call that failed. -/
def FailsAtConfigure (env : Env) (d0 : Debug) (args : List String) : Prop :=
  ∃ c v cfg pw k, Event.debugVCHCall c v cfg pw k ∈ (Run env d0 args).2 ∧
    isErr (env.debugVCH v cfg pw k) = true

/-- The run made a key-file read that failed. -/
def FailsAtKeyLoad (env : Env) (d0 : Debug) (args : List String) : Prop :=
  ∃ p, Event.readFileCall p ∈ (Run env d0 args).2 ∧ isErr (env.readFile p) = true

/-- The run made an `InspectVCH` call that failed. -/
def FailsAtInspection (env : Env) (d0 : Debug) (args : List String) : Prop :=
  ∃ c v cfg, Event.inspectVCHCall c v cfg ∈ (Run env d0 args).2 ∧
    isErr (env.inspectVCH v cfg) = true

/-- Inversion: `processParams` succeeds exactly when the credential check
passes, and then returns the input with `Insecure` forced to `true`. -/
theorem processParams_eq_ok {env : Env} {d d' : Debug} :
    processParams env d = Except.ok d' ↔
      env.hasCredentials = Except.ok () ∧
        d' = { d with data := { d.data with Insecure := true } } := by
  unfold processParams
  rcases h : env.hasCredentials with e | u
  · simp
  · cases u; simp [eq_comm]

/-- Inversion: `processParams` fails exactly with the credential error. -/
theorem processParams_eq_error {env : Env} {d : Debug} {e : String} :
    processParams env d = Except.error e ↔ env.hasCredentials = Except.error e := by
  unfold processParams
  rcases h : env.hasCredentials with e' | u <;> simp

/-- Inversion: `NewValidator` succeeds exactly when the underlying
validator construction succeeds, and then carries the given context. -/
theorem newValidator_eq_ok {env : Env} {ctx : Ctx} {dd : Data} {vl : Validator} :
    NewValidator env ctx dd = Except.ok vl ↔
      env.newValidator dd = Except.ok vl.Session ∧ vl.Context = ctx := by
  unfold NewValidator
  rcases h : env.newValidator dd with e | s
  · simp
  · cases vl
    simp [Validator.mk.injEq, and_comm, eq_comm]

/-- Inversion: `NewValidator` fails exactly with the underlying error. -/
theorem newValidator_eq_error {env : Env} {ctx : Ctx} {dd : Data} {e : String} :
    NewValidator env ctx dd = Except.error e ↔ env.newValidator dd = Except.error e := by
  unfold NewValidator
  rcases h : env.newValidator dd with e' | s <;> simp

theorem result_of_validation_failure {env : Env} {d0 : Debug} {args : List String}
    (h : FailsAtValidation env d0 args) :
    (Run env d0 args).1 = Except.error "Debug failed" := by
  obtain ⟨c, dd, hmem, hfail⟩ := h
  unfold Run NewDispatcher resolve fetchConfig loadKey debugAndInspect at hmem ⊢
  repeat' split at hmem
  all_goals
    simp_all [isErr, processParams_eq_ok, processParams_eq_error,
      newValidator_eq_ok, newValidator_eq_error]

theorem result_of_resolution_failure {env : Env} {d0 : Debug} {args : List String}
    (h : FailsAtResolution env d0 args) :
    (Run env d0 args).1 = Except.error "Debug failed" := by
  rcases h with ⟨c, i, hmem, hfail⟩ | ⟨c, pa, n, vl, hmem, hfail⟩ <;>
  · unfold Run NewDispatcher resolve fetchConfig loadKey debugAndInspect at hmem ⊢
    repeat' split at hmem
    all_goals
      simp_all [isErr, processParams_eq_ok, processParams_eq_error,
        newValidator_eq_ok, newValidator_eq_error]

theorem result_of_configFetch_failure {env : Env} {d0 : Debug} {args : List String}
    (h : FailsAtConfigFetch env d0 args) :
    (Run env d0 args).1 = Except.error "Debug failed" := by
  obtain ⟨c, v, hmem, hfail⟩ := h
  unfold Run NewDispatcher resolve fetchConfig loadKey debugAndInspect at hmem ⊢
  repeat' split at hmem
  all_goals
    simp_all [isErr, processParams_eq_ok, processParams_eq_error,
      newValidator_eq_ok, newValidator_eq_error]

theorem result_of_configure_failure {env : Env} {d0 : Debug} {args : List String}
    (h : FailsAtConfigure env d0 args) :
    (Run env d0 args).1 = Except.error "Debug failed" := by
  obtain ⟨c, v, cfg, pw, k, hmem, hfail⟩ := h
  unfold Run NewDispatcher resolve fetchConfig loadKey debugAndInspect at hmem ⊢
  repeat' split at hmem
  all_goals
    simp_all [isErr, processParams_eq_ok, processParams_eq_error,
      newValidator_eq_ok, newValidator_eq_error]

theorem result_of_keyLoad_failure {env : Env} {d0 : Debug} {args : List String}
    (h : FailsAtKeyLoad env d0 args) :
    (Run env d0 args).1 = Except.error "unable to load public key" := by
  obtain ⟨p, hmem, hfail⟩ := h
  unfold Run NewDispatcher resolve fetchConfig loadKey debugAndInspect at hmem ⊢
  repeat' split at hmem
  all_goals
    simp_all [isErr, processParams_eq_ok, processParams_eq_error,
      newValidator_eq_ok, newValidator_eq_error]

theorem result_of_inspection_failure {env : Env} {d0 : Debug} {args : List String}
    (h : FailsAtInspection env d0 args) :
    (Run env d0 args).1 = Except.error "inspect failed" := by
  obtain ⟨c, v, cfg, hmem, hfail⟩ := h
  unfold Run NewDispatcher resolve fetchConfig loadKey debugAndInspect at hmem ⊢
  repeat' split at hmem
  all_goals
    simp_all [isErr, processParams_eq_ok, processParams_eq_error,
      newValidator_eq_ok, newValidator_eq_error]

theorem result_of_extra_cli_args {env : Env} {d0 : Debug} {args : List String}
    (hcred : env.hasCredentials = Except.ok ()) (hargs : 0 < args.length) :
    (Run env d0 args).1 = Except.error "invalid CLI arguments" := by
  unfold Run
  rcases h : processParams env d0 with e | d
  · rw [processParams_eq_error] at h
    simp_all
  · simp [hargs]

/-- Claim C1: `CollectDiagnosticLogs` is invoked exactly on the failure
kinds ConfigurationFailed (`DebugVCH` returning an error) and
InspectionFailed (`InspectVCH` returning an error), and never when the
workflow fails earlier (input error, validation failure, resolution
failure, config-fetch failure, key-file read failure). -/
theorem collect_iff_configure_or_inspect_failed (env : Env) (d0 : Debug)
    (cliArgs : List String) :
    (∃ c, Event.collectDiagnosticLogsCall c ∈ (Run env d0 cliArgs).2) ↔
      ((∃ c v cfg pw k, Event.debugVCHCall c v cfg pw k ∈ (Run env d0 cliArgs).2 ∧
          isErr (env.debugVCH v cfg pw k) = true) ∨
        (∃ c v cfg, Event.inspectVCHCall c v cfg ∈ (Run env d0 cliArgs).2 ∧
          isErr (env.inspectVCH v cfg) = true)) := by
  unfold Run processParams NewValidator NewDispatcher resolve fetchConfig loadKey debugAndInspect
  repeat' split
  all_goals simp_all [isErr]
  all_goals
    first
      | exact ⟨_, _, _, _, _, ⟨rfl, rfl, rfl, rfl, rfl⟩, by simp_all⟩
      | exact Or.inr ⟨_, _, _, ⟨rfl, rfl, rfl⟩, by simp_all⟩

/-- Claim C2: if the Configure step (`DebugVCH`) fails, the Diagnostic
Collector is invoked exactly once, the workflow terminates with the
configuration failure error, and `InspectVCH` is never called; moreover
`InspectVCH` appears in a trace only together with a successful
`DebugVCH` call. -/
theorem configureFailed_collects_once_no_inspect (env : Env) (d0 : Debug)
    (cliArgs : List String) :
    (∀ c v cfg pw k, Event.debugVCHCall c v cfg pw k ∈ (Run env d0 cliArgs).2 →
        isErr (env.debugVCH v cfg pw k) = true →
        (Run env d0 cliArgs).1 = Except.error "Debug failed" ∧
        (Run env d0 cliArgs).2.countP isCollect = 1 ∧
        ∀ c' v' cfg', Event.inspectVCHCall c' v' cfg' ∉ (Run env d0 cliArgs).2) ∧
    (∀ c' v' cfg', Event.inspectVCHCall c' v' cfg' ∈ (Run env d0 cliArgs).2 →
        ∃ c v cfg pw k, Event.debugVCHCall c v cfg pw k ∈ (Run env d0 cliArgs).2 ∧
          isErr (env.debugVCH v cfg pw k) = false) := by
  unfold Run processParams NewValidator NewDispatcher resolve fetchConfig loadKey debugAndInspect
  repeat' split
  all_goals simp_all [isErr, isCollect, List.countP_cons, List.countP_nil]
  all_goals
    exact fun c' v' cfg' h1 h2 h3 =>
      ⟨_, _, _, _, _, ⟨rfl, rfl, rfl, rfl, rfl⟩, by simp_all⟩

/-- Witness for C2 at a concrete failing Configure step. -/
theorem configureFailed_witness :
    (Run envDebugFail dIn []).1 = Except.error "Debug failed" ∧
    (Run envDebugFail dIn []).2.countP isCollect = 1 ∧
    ∀ c' v' cfg', Event.inspectVCHCall c' v' cfg' ∉ (Run envDebugFail dIn []).2 :=
  (configureFailed_collects_once_no_inspect envDebugFail dIn []).1
    (Ctx.withTimeout Ctx.background 3) 1 3 "pw" "" (by decide) (by decide)

/-- Counterexample to claim C3 as stated: with ID, compute path and
display name all empty, the workflow does not surface a configuration
error before a remote call; here it makes the remote Validator call and
even completes successfully. -/
theorem bothEmpty_no_early_error_cex :
    dEmpty.data.ID = "" ∧ dEmpty.data.ComputeResourcePath = "" ∧
    dEmpty.data.DisplayName = "" ∧
    (Run envOk dEmpty []).1 = Except.ok () ∧
    Event.newValidatorCall (Ctx.withTimeout Ctx.background 3)
        { dEmpty.data with Insecure := true } ∈ (Run envOk dEmpty []).2 := by
  refine ⟨rfl, rfl, rfl, rfl, by decide⟩

/-- Claim C3 as amended: when the ID selector is empty (in particular when
the compute path and display name are also empty) and the credential
check passes, no configuration error is surfaced before remote calls: the
workflow calls the remote Validator and, when validation succeeds,
attempts remote resolution via `NewVCHFromComputePath` on the empty
compute path and display name; a resolution failure surfaces only then,
as the generic "Debug failed" error. -/
theorem bothEmpty_proceeds_to_remote_resolution (env : Env) (d0 : Debug)
    (hid : d0.data.ID = "") (hpath : d0.data.ComputeResourcePath = "")
    (hname : d0.data.DisplayName = "")
    (hcred : env.hasCredentials = Except.ok ()) :
    (∃ c dd, Event.newValidatorCall c dd ∈ (Run env d0 []).2) ∧
    (∀ c pa n vl, Event.newVCHFromComputePathCall c pa n vl ∈ (Run env d0 []).2 →
      pa = "" ∧ n = "" ∧
        (isErr (env.newVCHFromComputePath pa n vl) = true →
          (Run env d0 []).1 = Except.error "Debug failed")) ∧
    (∀ s, env.newValidator { d0.data with Insecure := true } = Except.ok s →
      ∃ c vl, Event.newVCHFromComputePathCall c "" "" vl ∈ (Run env d0 []).2) := by
  unfold Run NewDispatcher resolve fetchConfig loadKey debugAndInspect
  repeat' split
  all_goals
    simp_all [isErr, processParams_eq_ok, processParams_eq_error,
      newValidator_eq_ok, newValidator_eq_error]

/-- Witness for the amended C3 at the all-empty selector. -/
theorem bothEmpty_proceeds_witness :
    ∃ c vl, Event.newVCHFromComputePathCall c "" "" vl ∈ (Run envOk dEmpty []).2 :=
  (bothEmpty_proceeds_to_remote_resolution envOk dEmpty rfl rfl rfl rfl).2.2 7 rfl

/-- Claim C4: a failure to read the authorized-key file yields its own
error, "unable to load public key", different from every other error the
workflow returns; the appliance is never configured (`DebugVCH` is not
called) and no diagnostic collection happens. -/
theorem keyReadFailure_distinct_no_collect (env : Env) (d0 : Debug)
    (cliArgs : List String) (p : String)
    (hmem : Event.readFileCall p ∈ (Run env d0 cliArgs).2)
    (hfail : isErr (env.readFile p) = true) :
    (Run env d0 cliArgs).1 = Except.error "unable to load public key" ∧
    (∀ c v cfg pw k, Event.debugVCHCall c v cfg pw k ∉ (Run env d0 cliArgs).2) ∧
    (∀ c, Event.collectDiagnosticLogsCall c ∉ (Run env d0 cliArgs).2) ∧
    "unable to load public key" ≠ "Debug failed" ∧
    "unable to load public key" ≠ "inspect failed" ∧
    "unable to load public key" ≠ "invalid CLI arguments" := by
  unfold Run NewDispatcher resolve fetchConfig loadKey debugAndInspect at hmem ⊢
  repeat' split at hmem
  all_goals
    simp_all [isErr, processParams_eq_ok, processParams_eq_error,
      newValidator_eq_ok, newValidator_eq_error]

/-- Witness for C4 at a concrete unreadable key file. -/
theorem keyReadFailure_witness :
    (Run envReadFail dInKey []).1 = Except.error "unable to load public key" ∧
    (∀ c v cfg pw k, Event.debugVCHCall c v cfg pw k ∉ (Run envReadFail dInKey []).2) ∧
    (∀ c, Event.collectDiagnosticLogsCall c ∉ (Run envReadFail dInKey []).2) ∧
    "unable to load public key" ≠ "Debug failed" ∧
    "unable to load public key" ≠ "inspect failed" ∧
    "unable to load public key" ≠ "invalid CLI arguments" :=
  keyReadFailure_distinct_no_collect envReadFail dInKey [] "/root/key.pub"
    (by decide) (by decide)

/-- Claim C5: when the ID selector is non-empty, resolution goes through
`NewVCHFromID` with that ID and `NewVCHFromComputePath` is never called;
only when the ID is empty is resolution attempted via the
(ComputeResourcePath, DisplayName) pair. -/
theorem resolution_selector_precedence (env : Env) (d0 : Debug)
    (cliArgs : List String) :
    (d0.data.ID ≠ "" →
      (∀ c pa n vl, Event.newVCHFromComputePathCall c pa n vl ∉ (Run env d0 cliArgs).2) ∧
      (∀ c i, Event.newVCHFromIDCall c i ∈ (Run env d0 cliArgs).2 → i = d0.data.ID) ∧
      (env.hasCredentials = Except.ok () → cliArgs = [] →
        ∀ s, env.newValidator { d0.data with Insecure := true } = Except.ok s →
          ∃ c, Event.newVCHFromIDCall c d0.data.ID ∈ (Run env d0 cliArgs).2)) ∧
    (d0.data.ID = "" →
      (∀ c i, Event.newVCHFromIDCall c i ∉ (Run env d0 cliArgs).2) ∧
      (∀ c pa n vl, Event.newVCHFromComputePathCall c pa n vl ∈ (Run env d0 cliArgs).2 →
        pa = d0.data.ComputeResourcePath ∧ n = d0.data.DisplayName)) := by
  unfold Run NewDispatcher resolve fetchConfig loadKey debugAndInspect
  repeat' split
  all_goals
    simp_all [isErr, processParams_eq_ok, processParams_eq_error,
      newValidator_eq_ok, newValidator_eq_error]
  all_goals (intro h1 h2; simp_all)

/-- Witness for C5 at a concrete non-empty ID. -/
theorem resolution_selector_witness :
    (∀ c pa n vl, Event.newVCHFromComputePathCall c pa n vl ∉ (Run envOk dIn []).2) ∧
    (∃ c, Event.newVCHFromIDCall c dIn.data.ID ∈ (Run envOk dIn []).2) :=
  ⟨((resolution_selector_precedence envOk dIn []).1 (by decide)).1,
   ((resolution_selector_precedence envOk dIn []).1 (by decide)).2.2 rfl rfl 7 rfl⟩

/-- Claim C6: if `validate.NewValidator` fails, the workflow terminates
with an error immediately: the trace is exactly the validator call, so no
diagnostic collection happens and the Resolver, Configurator, and
Inspector are never invoked. -/
theorem validationFailed_terminal_no_collect (env : Env) (d0 : Debug)
    (cliArgs : List String) (c : Ctx) (dd : Data)
    (hmem : Event.newValidatorCall c dd ∈ (Run env d0 cliArgs).2)
    (hfail : isErr (env.newValidator dd) = true) :
    (Run env d0 cliArgs).1 = Except.error "Debug failed" ∧
    (Run env d0 cliArgs).2 = [Event.newValidatorCall c dd] ∧
    (∀ c', Event.collectDiagnosticLogsCall c' ∉ (Run env d0 cliArgs).2) ∧
    (∀ c' i, Event.newVCHFromIDCall c' i ∉ (Run env d0 cliArgs).2) ∧
    (∀ c' pa n vl, Event.newVCHFromComputePathCall c' pa n vl ∉ (Run env d0 cliArgs).2) ∧
    (∀ c' v cfg pw k, Event.debugVCHCall c' v cfg pw k ∉ (Run env d0 cliArgs).2) ∧
    (∀ c' v cfg, Event.inspectVCHCall c' v cfg ∉ (Run env d0 cliArgs).2) := by
  unfold Run NewDispatcher resolve fetchConfig loadKey debugAndInspect at hmem ⊢
  repeat' split at hmem
  all_goals
    simp_all [isErr, processParams_eq_ok, processParams_eq_error,
      newValidator_eq_ok, newValidator_eq_error]

/-- Witness for C6 at a concrete failing validator. -/
theorem validationFailed_witness :
    (Run envValidatorFail dIn []).1 = Except.error "Debug failed" ∧
    (Run envValidatorFail dIn []).2 =
      [Event.newValidatorCall (Ctx.withTimeout Ctx.background 3)
        { dataIn with Insecure := true }] ∧
    (∀ c', Event.collectDiagnosticLogsCall c' ∉ (Run envValidatorFail dIn []).2) ∧
    (∀ c' i, Event.newVCHFromIDCall c' i ∉ (Run envValidatorFail dIn []).2) ∧
    (∀ c' pa n vl,
      Event.newVCHFromComputePathCall c' pa n vl ∉ (Run envValidatorFail dIn []).2) ∧
    (∀ c' v cfg pw k, Event.debugVCHCall c' v cfg pw k ∉ (Run envValidatorFail dIn []).2) ∧
    (∀ c' v cfg, Event.inspectVCHCall c' v cfg ∉ (Run envValidatorFail dIn []).2) :=
  validationFailed_terminal_no_collect envValidatorFail dIn []
    (Ctx.withTimeout Ctx.background 3) { dataIn with Insecure := true }
    (by decide) (by decide)

/-- Claim C7: an `InspectVCH` failure after a successful `DebugVCH`
triggers diagnostic collection and returns "inspect failed", an error
value distinct from the configuration-failure error "Debug failed". -/
theorem inspectFailed_collects_distinct_error (env : Env) (d0 : Debug)
    (cliArgs : List String) (c : Ctx) (v : VCH) (cfg : VCHConfig)
    (hmem : Event.inspectVCHCall c v cfg ∈ (Run env d0 cliArgs).2)
    (hfail : isErr (env.inspectVCH v cfg) = true) :
    (Run env d0 cliArgs).1 = Except.error "inspect failed" ∧
    (∃ c', Event.collectDiagnosticLogsCall c' ∈ (Run env d0 cliArgs).2) ∧
    (∃ c' pw k, Event.debugVCHCall c' v cfg pw k ∈ (Run env d0 cliArgs).2 ∧
      isErr (env.debugVCH v cfg pw k) = false) ∧
    (Except.error "inspect failed" : Except String Unit) ≠ Except.error "Debug failed" := by
  unfold Run NewDispatcher resolve fetchConfig loadKey debugAndInspect at hmem ⊢
  repeat' split at hmem
  all_goals
    simp_all [isErr, processParams_eq_ok, processParams_eq_error,
      newValidator_eq_ok, newValidator_eq_error]
  all_goals exact ⟨_, _, _, ⟨rfl, rfl, rfl⟩, by simp_all⟩

/-- Witness for C7 at a concrete failing inspection. -/
theorem inspectFailed_witness :
    (Run envInspectFail dIn []).1 = Except.error "inspect failed" ∧
    (∃ c', Event.collectDiagnosticLogsCall c' ∈ (Run envInspectFail dIn []).2) ∧
    (∃ c' pw k, Event.debugVCHCall c' 1 3 pw k ∈ (Run envInspectFail dIn []).2 ∧
      isErr (envInspectFail.debugVCH 1 3 pw k) = false) ∧
    (Except.error "inspect failed" : Except String Unit) ≠ Except.error "Debug failed" :=
  inspectFailed_collects_distinct_error envInspectFail dIn []
    (Ctx.withTimeout Ctx.background 3) 1 3 (by decide) (by decide)

/-- Claim C8: for every invocation that passes the credential check,
insecure mode is forced on before validation regardless of the supplied
value: `processParams` returns the input with `Insecure := true`, and the
data handed to the Validator (and thereby in effect for the rest of the
run) is exactly the caller data with `Insecure` forced to `true`. -/
theorem insecure_forced_on (env : Env) (d0 : Debug) (cliArgs : List String)
    (hcred : env.hasCredentials = Except.ok ()) :
    (∀ d', processParams env d0 = Except.ok d' → d'.data.Insecure = true) ∧
    (∀ c dd, Event.newValidatorCall c dd ∈ (Run env d0 cliArgs).2 →
      dd = { d0.data with Insecure := true }) := by
  constructor
  · intro d' h
    rw [processParams_eq_ok] at h
    rw [h.2]
  · intro c dd hmem
    unfold Run NewDispatcher resolve fetchConfig loadKey debugAndInspect at hmem
    repeat' split at hmem
    all_goals
      simp_all [isErr, processParams_eq_ok, processParams_eq_error,
        newValidator_eq_ok, newValidator_eq_error]

/-- Witness for C8: the caller supplies `Insecure := false` and the data
that reaches the Validator has `Insecure = true`. -/
theorem insecure_forced_witness :
    dIn.data.Insecure = false ∧
    ∀ c dd, Event.newValidatorCall c dd ∈ (Run envOk dIn []).2 →
      dd = { dIn.data with Insecure := true } :=
  ⟨rfl, (insecure_forced_on envOk dIn [] rfl).2⟩

/-- Claim C9: one deadline context, created once at workflow entry from
the caller-supplied timeout, governs every step: every event in the trace
that carries a context carries exactly
`Ctx.withTimeout Ctx.background d0.data.Timeout`. -/
theorem all_steps_under_single_deadline (env : Env) (d0 : Debug)
    (cliArgs : List String) :
    ∀ ev ∈ (Run env d0 cliArgs).2, ∀ c, eventCtx ev = some c →
      c = Ctx.withTimeout Ctx.background d0.data.Timeout := by
  unfold Run NewDispatcher resolve fetchConfig loadKey debugAndInspect
  repeat' split
  all_goals
    simp_all [eventCtx, processParams_eq_ok, processParams_eq_error,
      newValidator_eq_ok, newValidator_eq_error]

/-- Witness for C9 at a concrete resolution event. -/
theorem single_deadline_witness :
    Ctx.withTimeout Ctx.background 3 = Ctx.withTimeout Ctx.background dIn.data.Timeout :=
  all_steps_under_single_deadline envOk dIn []
    (Event.newVCHFromIDCall (Ctx.withTimeout Ctx.background 3) "vch-42") (by decide)
    (Ctx.withTimeout Ctx.background 3) rfl

/-- Claim C10: the validation-failure, resolution-failure, config-fetch
failure and configuration-failure paths all return the identical opaque
error value (message "Debug failed"), so those kinds cannot be told apart
from the returned error; the key-load error ("unable to load public
key"), the inspection error ("inspect failed") and the CLI-argument error
("invalid CLI arguments") are the distinguishable ones, pairwise distinct
and distinct from "Debug failed". -/
theorem failure_kinds_error_values
    (env1 : Env) (d1 : Debug) (a1 : List String)
    (env2 : Env) (d2 : Debug) (a2 : List String)
    (env3 : Env) (d3 : Debug) (a3 : List String)
    (env4 : Env) (d4 : Debug) (a4 : List String)
    (env5 : Env) (d5 : Debug) (a5 : List String)
    (env6 : Env) (d6 : Debug) (a6 : List String)
    (h1 : FailsAtValidation env1 d1 a1) (h2 : FailsAtResolution env2 d2 a2)
    (h3 : FailsAtConfigFetch env3 d3 a3) (h4 : FailsAtConfigure env4 d4 a4)
    (h5 : FailsAtKeyLoad env5 d5 a5) (h6 : FailsAtInspection env6 d6 a6) :
    (Run env1 d1 a1).1 = Except.error "Debug failed" ∧
    (Run env2 d2 a2).1 = (Run env1 d1 a1).1 ∧
    (Run env3 d3 a3).1 = (Run env1 d1 a1).1 ∧
    (Run env4 d4 a4).1 = (Run env1 d1 a1).1 ∧
    (Run env5 d5 a5).1 = Except.error "unable to load public key" ∧
    (Run env6 d6 a6).1 = Except.error "inspect failed" ∧
    (∀ (e : Env) (dx : Debug) (ax : List String), e.hasCredentials = Except.ok () →
      0 < ax.length → (Run e dx ax).1 = Except.error "invalid CLI arguments") ∧
    "unable to load public key" ≠ "Debug failed" ∧
    "inspect failed" ≠ "Debug failed" ∧
    "invalid CLI arguments" ≠ "Debug failed" ∧
    "unable to load public key" ≠ "inspect failed" ∧
    "unable to load public key" ≠ "invalid CLI arguments" ∧
    "inspect failed" ≠ "invalid CLI arguments" := by
  refine ⟨result_of_validation_failure h1, ?_, ?_, ?_, result_of_keyLoad_failure h5,
    result_of_inspection_failure h6, fun e dx ax hc ha => result_of_extra_cli_args hc ha,
    by decide, by decide, by decide, by decide, by decide, by decide⟩
  · rw [result_of_validation_failure h1, result_of_resolution_failure h2]
  · rw [result_of_validation_failure h1, result_of_configFetch_failure h3]
  · rw [result_of_validation_failure h1, result_of_configure_failure h4]

/-- Witness for C10 at six concrete runs, one per failure kind. -/
theorem failure_kinds_witness :
    (Run envValidatorFail dIn []).1 = Except.error "Debug failed" ∧
    (Run envResolveFail dIn []).1 = (Run envValidatorFail dIn []).1 ∧
    (Run envConfigFail dIn []).1 = (Run envValidatorFail dIn []).1 ∧
    (Run envDebugFail dIn []).1 = (Run envValidatorFail dIn []).1 ∧
    (Run envReadFail dInKey []).1 = Except.error "unable to load public key" ∧
    (Run envInspectFail dIn []).1 = Except.error "inspect failed" ∧
    (∀ (e : Env) (dx : Debug) (ax : List String), e.hasCredentials = Except.ok () →
      0 < ax.length → (Run e dx ax).1 = Except.error "invalid CLI arguments") ∧
    "unable to load public key" ≠ "Debug failed" ∧
    "inspect failed" ≠ "Debug failed" ∧
    "invalid CLI arguments" ≠ "Debug failed" ∧
    "unable to load public key" ≠ "inspect failed" ∧
    "unable to load public key" ≠ "invalid CLI arguments" ∧
    "inspect failed" ≠ "invalid CLI arguments" :=
  failure_kinds_error_values
    envValidatorFail dIn [] envResolveFail dIn [] envConfigFail dIn []
    envDebugFail dIn [] envReadFail dInKey [] envInspectFail dIn []
    ⟨Ctx.withTimeout Ctx.background 3, { dataIn with Insecure := true },
      by decide, by decide⟩
    (Or.inl ⟨Ctx.withTimeout Ctx.background 3, "vch-42", by decide, by decide⟩)
    ⟨Ctx.withTimeout Ctx.background 3, 1, by decide, by decide⟩
    ⟨Ctx.withTimeout Ctx.background 3, 1, 3, "pw", "", by decide, by decide⟩
    ⟨"/root/key.pub", by decide, by decide⟩
    ⟨Ctx.withTimeout Ctx.background 3, 1, 3, by decide, by decide⟩

end VicDebug
